import Mathlib

/-!
Verification of the GPX road-bike track-analysis application.

The repository ships the frontend components (FileUpload, MapView,
ProgressTracker, AnalysisResults, and the page wiring them together);
the backend job engine (geometry, classifier, aggregator, job
controller) is specified in spec.md but its source is not part of this
tree, so those parts are modelled from the spec.  Numbers are modelled
as rationals; JavaScript strings as Lean strings (lists of characters).
-/

/-- Modelled from the spec: a parsed track point (§3 DATA MODEL). -/
structure TrackPoint where
  index : ℕ
  latitude : ℚ
  longitude : ℚ
  elevation : ℚ
deriving DecidableEq

/-- Modelled from the spec: the analysis configuration (§3); the spec
requires `slopeThresholdPercent > 0`, which theorems take as a
hypothesis where they need it. -/
structure AnalysisConfig where
  slopeThresholdPercent : ℚ
deriving DecidableEq

/-- Modelled from the spec: `slopePercent` (§4.1).  The great-circle
distance itself is transcendental, so the Geometry Engine's distance
function is passed in as a parameter; the guard on zero distance is the
spec's. -/
def slopePercent (dist : TrackPoint → TrackPoint → ℚ) (a b : TrackPoint) : ℚ :=
  if dist a b = 0 then 0 else (b.elevation - a.elevation) / dist a b * 100

/-- Modelled from the spec: the slope value rounded to one decimal,
kept as the integer number of tenths. -/
def roundedTenths (x : ℚ) : ℤ := round (10 * x)

/-- Modelled from the spec: decimal rendering of a slope rounded to one
decimal, e.g. `45.0`. -/
def fmtTenths (x : ℚ) : String :=
  (if roundedTenths x < 0 then "-" else "")
    ++ toString ((roundedTenths x).natAbs / 10) ++ "."
    ++ toString ((roundedTenths x).natAbs % 10)

/-- Modelled from the spec: the steep-slope warning string
`steep_slope:<value>` with the slope rounded to one decimal (§4.3
rule 1). -/
def steepWarning (slope : ℚ) : String := "steep_slope:" ++ fmtTenths slope

/-- Modelled from the spec: recognition of an unsuitable surface in the
tag snapshot (§4.3 rule 2 names unpaved/gravel/dirt as examples). -/
def surfaceTag (tags : List (String × String)) : Option String :=
  match tags.lookup "surface" with
  | some v => if v = "unpaved" ∨ v = "gravel" ∨ v = "dirt" then some v else none
  | none => none

/-- Modelled from the spec: the surface warnings emitted by rule 2 of
the classifier (§4.3). -/
def surfaceWarnings (tags : List (String × String)) : List String :=
  match surfaceTag tags with
  | some v => ["surface:" ++ v]
  | none => []

/-- Modelled from the spec: the classifier (§4.3).  Rules are applied
in the fixed order steep-slope first, then surface, so the warning list
is deterministic. -/
def classify (p : TrackPoint) (slope : ℚ) (tags : List (String × String))
    (cfg : AnalysisConfig) : List String :=
  (if |slope| > cfg.slopeThresholdPercent then [steepWarning slope] else [])
    ++ surfaceWarnings tags

/-- Modelled from the spec: a Segment, one per flagged point (§3). -/
structure Segment where
  segmentIndex : ℕ
  pointIndex : ℕ
  latitude : ℚ
  longitude : ℚ
  elevation : ℚ
  warnings : List String
  tagsFound : List (String × String)
deriving DecidableEq

/-- The warning-type bucket of a warning string: everything before the
first colon.  This embeds the JavaScript expression
`warning.split(':')[0]` used by MapView (src/unnamed/part_000). -/
def warningType (w : String) : String :=
  String.mk (w.data.takeWhile (fun c => c != ':'))

/-- Modelled from the spec: increment the count of key `k` in an
association list, appending a fresh entry in first-seen order (§4.4
`warningTypes`). -/
def bump : List (String × ℕ) → String → List (String × ℕ)
  | [], k => [(k, 1)]
  | (k₀, c) :: rest, k =>
      if k₀ = k then (k₀, c + 1) :: rest else (k₀, c) :: bump rest k

/-- Modelled from the spec: the `warningTypes` mapping of the summary,
counting warnings by the bucket before the colon, accumulated in
first-seen order (§4.4). -/
def warningTypesOf (segs : List Segment) : List (String × ℕ) :=
  segs.foldl (fun m s => s.warnings.foldl (fun m₂ w => bump m₂ (warningType w)) m) []

/-- Total of all counts recorded in a warning-type mapping. -/
def sumCounts (m : List (String × ℕ)) : ℕ := (m.map Prod.snd).sum

/-- Modelled from the spec: the summary built by the Aggregator
(§4.4). -/
structure Summary where
  totalWarnings : ℕ
  unsuitableSegments : ℕ
  warningTypes : List (String × ℕ)
deriving DecidableEq

/-- Modelled from the spec: the Aggregator fold (§4.4). -/
def aggregate (segs : List Segment) : Summary :=
  { totalWarnings := (segs.map (fun s => s.warnings.length)).sum
    unsuitableSegments := segs.length
    warningTypes := warningTypesOf segs }

/-- Modelled from the spec: the final analysis result (§3). -/
structure AnalysisResult where
  filename : String
  totalPoints : ℕ
  problematicSegments : List Segment
  summary : Summary
deriving DecidableEq

/-- Modelled from the spec: the Segmenter walking adjacent point pairs
and retaining only points with at least one warning (§4.2, §4.3).  Tag
lookup is the external best-effort capability, passed as a
parameter. -/
def segmentsOf (dist : TrackPoint → TrackPoint → ℚ)
    (lookupTags : TrackPoint → List (String × String))
    (points : List TrackPoint) (cfg : AnalysisConfig) : List Segment :=
  (points.zip points.tail).filterMap (fun pc =>
    let ws := classify pc.2 (slopePercent dist pc.1 pc.2) (lookupTags pc.2) cfg
    if ws = [] then none
    else some
      { segmentIndex := pc.2.index
        pointIndex := pc.2.index
        latitude := pc.2.latitude
        longitude := pc.2.longitude
        elevation := pc.2.elevation
        warnings := ws
        tagsFound := lookupTags pc.2 })

/-- Modelled from the spec: the full Segmenter→Classifier→Aggregator
pipeline producing the AnalysisResult (§2, §3). -/
def analyzeTrack (dist : TrackPoint → TrackPoint → ℚ)
    (lookupTags : TrackPoint → List (String × String))
    (points : List TrackPoint) (cfg : AnalysisConfig) (filename : String) :
    AnalysisResult :=
  { filename := filename
    totalPoints := points.length
    problematicSegments := segmentsOf dist lookupTags points cfg
    summary := aggregate (segmentsOf dist lookupTags points cfg) }

/-- Modelled from the spec: the job status enumeration (§3). -/
inductive Status where
  | starting
  | processing
  | completed
  | error
deriving DecidableEq

/-- Modelled from the spec: terminal statuses (§3, GLOSSARY). -/
def isTerminal : Status → Bool
  | .completed => true
  | .error => true
  | _ => false

/-- Modelled from the spec: one published JobState snapshot (§3). -/
structure JobState where
  status : Status
  progressPercent : ℚ
  currentStep : String
  totalPoints : ℕ
  processedPoints : ℕ
  result : Option AnalysisResult
  error : Option String

/-- Modelled from the spec: the snapshot published on creation (§4.5
Starting). -/
def startingState : JobState :=
  { status := .starting
    progressPercent := 0
    currentStep := "Initialisation"
    totalPoints := 0
    processedPoints := 0
    result := none
    error := none }

/-- Modelled from the spec: a Processing snapshot after `k` of `n`
points (§4.5 Processing). -/
def processingState (n k : ℕ) : JobState :=
  { status := .processing
    progressPercent := (k : ℚ) / (n : ℚ) * 100
    currentStep := "Analyse des points"
    totalPoints := n
    processedPoints := k
    result := none
    error := none }

/-- Modelled from the spec: the terminal Completed snapshot, with the
result populated in the same snapshot as the status change (§4.5
Completed). -/
def completedState (n : ℕ) (r : AnalysisResult) : JobState :=
  { status := .completed
    progressPercent := 100
    currentStep := "Terminé"
    totalPoints := n
    processedPoints := n
    result := some r
    error := none }

/-- Modelled from the spec: the terminal Error snapshot; progress
freezes at its last value, here the value on entering Processing (§4.5
Error). -/
def errState (n : ℕ) (msg : String) : JobState :=
  { status := .error
    progressPercent := 0
    currentStep := "Erreur"
    totalPoints := n
    processedPoints := 0
    result := none
    error := some msg }

/-- Modelled from the spec: the Job Controller's background run as the
ordered sequence of snapshots it publishes (§4.5, §8).  Every job
starts in Starting, enters Processing once the point sequence is
available (per the testable property "transitions follow exactly
Starting → Processing → (Completed | Error)"), publishes one snapshot
per processed point, and ends in a single terminal snapshot: Error on
insufficient data, Completed otherwise with the aggregated result. -/
def runJob (dist : TrackPoint → TrackPoint → ℚ)
    (lookupTags : TrackPoint → List (String × String))
    (points : List TrackPoint) (cfg : AnalysisConfig) (filename : String) :
    List JobState :=
  if points.length < 2 then
    [startingState, processingState points.length 0,
      errState points.length "InsufficientData: at least two points are required"]
  else
    (startingState :: processingState points.length 0 ::
        (List.range points.length).map (fun k => processingState points.length (k + 1)))
      ++ [completedState points.length (analyzeTrack dist lookupTags points cfg filename)]

/-- Modelled from the spec: the field names of the status payload that
any transport must preserve (§6 EXTERNAL INTERFACES). -/
def statusPayloadFields : List String :=
  ["status", "progress", "current_step", "total_points", "processed_points",
    "result", "error"]

/-- Field names of the ProgressData interface deserialized by the
frontend poller (src/frontend/components/ProgressTracker.tsx). -/
def progressDataFields : List String :=
  ["status", "progress", "current_step", "total_points", "processed_points",
    "result", "error"]

/-- Field names of the AnalysisResult interface deserialized by the
frontend page (src/unnamed/part_001). -/
def analysisResultFields : List String :=
  ["filename", "total_points", "problematic_segments", "summary"]

/-- Field names of one problematic-segment record in the frontend's
AnalysisResult interface (src/unnamed/part_001). -/
def problematicSegmentFields : List String :=
  ["segment_index", "point_index", "latitude", "longitude", "elevation",
    "warnings", "tags_found"]

/-- Field names of the summary record in the frontend's AnalysisResult
interface (src/unnamed/part_001). -/
def summaryFields : List String :=
  ["total_warnings", "unsuitable_segments", "warning_types"]

/-- The warnings of a segment whose type bucket is enabled, as filtered
by MapView before deciding to place a marker (src/unnamed/part_000). -/
def filteredWarnings (enabled : List String) (warnings : List String) : List String :=
  warnings.filter (fun w => enabled.contains (warningType w))

/-- Whether MapView adds a marker for a segment: it does so exactly
when the filtered warning list is non-empty (src/unnamed/part_000). -/
def markerAdded (enabled : List String) (s : Segment) : Bool :=
  decide (0 < (filteredWarnings enabled s.warnings).length)

/-- A file as seen by the FileUpload handlers: only its name matters. -/
structure FileRec where
  name : String
deriving DecidableEq

/-- The observable effect of a FileUpload handler invocation. -/
inductive UploadAction where
  | runAnalysis (f : FileRec) (threshold : ℚ)
  | alertMsg (msg : String)
  | noAction
deriving DecidableEq

/-- JavaScript `String.prototype.endsWith`, over the character data. -/
def jsEndsWith (s post : String) : Bool := post.data.isSuffixOf s.data

/-- The drop handler of FileUpload (src/unnamed/part_000): if a file is
present it checks the `.gpx` name ending before starting the analysis,
alerting otherwise. -/
def handleDrop (files : List FileRec) (slopeThreshold : ℚ) : UploadAction :=
  match files with
  | [] => .noAction
  | f :: _ =>
      if jsEndsWith f.name ".gpx" then .runAnalysis f slopeThreshold
      else .alertMsg "Veuillez sélectionner un fichier .gpx"

/-- The change handler of FileUpload (src/unnamed/part_000): if a file
is present the analysis starts with no filename check. -/
def handleChange (files : List FileRec) (slopeThreshold : ℚ) : UploadAction :=
  match files with
  | [] => .noAction
  | f :: _ => .runAnalysis f slopeThreshold

/-- One status response as deserialized by ProgressTracker
(src/frontend/components/ProgressTracker.tsx). -/
structure ProgressData where
  status : String
  progress : ℚ
  current_step : String
  total_points : ℕ
  processed_points : ℕ
  result : Option AnalysisResult
  error : Option String

/-- The observable effect of one polling tick of ProgressTracker. -/
inductive PollAction where
  | continuePolling
  | callOnComplete (r : AnalysisResult)
  | callOnError (msg : String)
deriving DecidableEq

/-- JavaScript `a || b` on an optional string: the fallback is used
when the string is absent or empty (both falsy). -/
def jsOrStr (o : Option String) (fallback : String) : String :=
  match o with
  | some s => if s = "" then fallback else s
  | none => fallback

/-- One polling tick of ProgressTracker
(src/frontend/components/ProgressTracker.tsx, lines 31-56): a failed
fetch is caught and polling continues; on a response, polling stops
with `onComplete` when the status is `completed` and a result is
present, stops with `onError` when the status is `error`, and
continues otherwise. -/
def pollStep (resp : Option ProgressData) : PollAction :=
  match resp with
  | none => .continuePolling
  | some d =>
      if h : d.status = "completed" ∧ d.result.isSome = true then
        .callOnComplete (d.result.get h.2)
      else if d.status = "error" then
        .callOnError (jsOrStr d.error "Erreur inconnue")
      else .continuePolling

/-- A distance function that reports every pair of points as
coincident; used to evaluate theorems at concrete inputs. -/
def distZero : TrackPoint → TrackPoint → ℚ := fun _ _ => 0

/-- A tag lookup returning no tags; used to evaluate theorems at
concrete inputs. -/
def lookupZero : TrackPoint → List (String × String) := fun _ => []

/-- A concrete track point for evaluating theorems. -/
def ptA : TrackPoint := { index := 0, latitude := 0, longitude := 0, elevation := 100 }

/-- A second concrete track point for evaluating theorems. -/
def ptB : TrackPoint := { index := 1, latitude := 0, longitude := 1/1000, elevation := 150 }

/-- A concrete single-point track for evaluating theorems. -/
def onePt : List TrackPoint := [ptA]

/-- A concrete two-point track for evaluating theorems. -/
def twoPts : List TrackPoint := [ptA, ptB]

/-- A concrete configuration with a 10 percent threshold. -/
def cfg10 : AnalysisConfig := { slopeThresholdPercent := 10 }

/-- A concrete segment carrying one steep-slope warning. -/
def segSteep : Segment :=
  { segmentIndex := 1
    pointIndex := 1
    latitude := 0
    longitude := 1/1000
    elevation := 150
    warnings := ["steep_slope:45.0"]
    tagsFound := [] }

/-- A concrete error status response for evaluating theorems. -/
def respErr : ProgressData :=
  { status := "error"
    progress := 40
    current_step := "Analyse des points"
    total_points := 10
    processed_points := 4
    result := none
    error := some "boom" }

/-- Two strings with distinct warning-type buckets are never equal,
whatever their details. -/
theorem steep_ne_surface (a b : String) : "steep_slope:" ++ a ≠ "surface:" ++ b := by
  intro h
  have h₂ : ("steep_slope:" ++ a).data = ("surface:" ++ b).data := congrArg String.data h
  rw [String.data_append, String.data_append] at h₂
  have e₁ : "steep_slope:".data
      = 's' :: 't' :: 'e' :: 'e' :: 'p' :: '_' :: 's' :: 'l' :: 'o' :: 'p' :: 'e' :: ':' :: [] := rfl
  have e₂ : "surface:".data
      = 's' :: 'u' :: 'r' :: 'f' :: 'a' :: 'c' :: 'e' :: ':' :: [] := rfl
  rw [e₁, e₂] at h₂
  simp only [List.cons_append, List.nil_append] at h₂
  injection h₂ with h₃ h₄
  injection h₄ with h₅ h₆
  exact absurd h₅ (by decide)

/-- Claim C1: the classifier emits the steep-slope warning exactly when
the absolute slope strictly exceeds the configured threshold (so an
absolute slope equal to the threshold emits none), and every
steep-slope warning it emits is the string `steep_slope:<value>` with
the slope rounded to one decimal. -/
theorem classify_steep_slope_iff (p : TrackPoint) (slope : ℚ)
    (tags : List (String × String)) (cfg : AnalysisConfig) :
    (steepWarning slope ∈ classify p slope tags cfg ↔
      |slope| > cfg.slopeThresholdPercent) ∧
    (∀ w ∈ classify p slope tags cfg,
      (∃ v, w = "steep_slope:" ++ v) → w = steepWarning slope) ∧
    steepWarning slope = "steep_slope:" ++ fmtTenths slope := by
  refine ⟨⟨?_, ?_⟩, ?_, rfl⟩
  · intro hmem
    by_contra hnot
    rw [classify, if_neg hnot, List.nil_append] at hmem
    rw [surfaceWarnings] at hmem
    cases hst : surfaceTag tags with
    | some v =>
        rw [hst] at hmem
        have := List.mem_singleton.mp hmem
        exact steep_ne_surface (fmtTenths slope) v this
    | none =>
        rw [hst] at hmem
        exact absurd hmem (List.not_mem_nil _)
  · intro h
    rw [classify, if_pos h]
    exact List.mem_append_left _ (List.mem_singleton.mpr rfl)
  · intro w hw hv
    obtain ⟨v, rfl⟩ := hv
    rw [classify] at hw
    rcases List.mem_append.mp hw with h₁ | h₂
    · by_cases hc : |slope| > cfg.slopeThresholdPercent
      · rw [if_pos hc] at h₁
        exact List.mem_singleton.mp h₁
      · rw [if_neg hc] at h₁
        exact absurd h₁ (List.not_mem_nil _)
    · rw [surfaceWarnings] at h₂
      cases hst : surfaceTag tags with
      | some u =>
          rw [hst] at h₂
          have := List.mem_singleton.mp h₂
          exact absurd this (steep_ne_surface v u)
      | none =>
          rw [hst] at h₂
          exact absurd h₂ (List.not_mem_nil _)

/-- Witness for C1: with threshold 10 and slope 15 the steep-slope
warning is in the classifier output, and it is the canonical string. -/
theorem classify_steep_slope_iff_witness :
    steepWarning 15 ∈ classify ptA 15 [] cfg10 ∧
    steepWarning 15 = "steep_slope:" ++ fmtTenths 15 := by
  have h := classify_steep_slope_iff ptA 15 [] cfg10
  exact ⟨h.1.mpr (by norm_num [cfg10]), h.2.2⟩

/-- Claim C2: when the distance between two points is zero the slope is
defined as zero (the division is never performed), and consequently the
classifier emits no steep-slope warning for such a pair, whatever the
elevations (the spec requires a positive threshold). -/
theorem slope_zero_on_coincident (dist : TrackPoint → TrackPoint → ℚ)
    (a b p : TrackPoint) (tags : List (String × String)) (cfg : AnalysisConfig)
    (hthr : 0 < cfg.slopeThresholdPercent) (h : dist a b = 0) :
    slopePercent dist a b = 0 ∧
    ∀ w ∈ classify p (slopePercent dist a b) tags cfg,
      ¬ ∃ v, w = "steep_slope:" ++ v := by
  have hs : slopePercent dist a b = 0 := by rw [slopePercent, if_pos h]
  refine ⟨hs, ?_⟩
  intro w hw hv
  obtain ⟨v, rfl⟩ := hv
  rw [hs] at hw
  have hno : ¬ |(0 : ℚ)| > cfg.slopeThresholdPercent := by
    rw [abs_zero]
    exact not_lt.mpr (le_of_lt hthr)
  rw [classify, if_neg hno, List.nil_append, surfaceWarnings] at hw
  cases hst : surfaceTag tags with
  | some u =>
      rw [hst] at hw
      exact absurd (List.mem_singleton.mp hw) (steep_ne_surface v u)
  | none =>
      rw [hst] at hw
      exact absurd hw (List.not_mem_nil _)

/-- Witness for C2: the all-zero distance function makes the slope of
the two concrete points zero. -/
theorem slope_zero_on_coincident_witness : slopePercent distZero ptA ptB = 0 :=
  (slope_zero_on_coincident distZero ptA ptB ptB [] cfg10 (by norm_num [cfg10]) rfl).1

/-- Bumping a key adds exactly one to the total of all counts. -/
theorem sumCounts_bump (m : List (String × ℕ)) (k : String) :
    sumCounts (bump m k) = sumCounts m + 1 := by
  induction m with
  | nil => rfl
  | cons q rest ih =>
      obtain ⟨k₀, c⟩ := q
      by_cases h : k₀ = k
      · simp only [bump, if_pos h, sumCounts, List.map_cons, List.sum_cons]
        omega
      · simp only [bump, if_neg h, sumCounts, List.map_cons, List.sum_cons] at *
        omega

/-- Folding one warning list into the mapping adds the list's length to
the total of all counts. -/
theorem sumCounts_foldl_warnings (ws : List String) (m : List (String × ℕ)) :
    sumCounts (ws.foldl (fun m₂ w => bump m₂ (warningType w)) m)
      = sumCounts m + ws.length := by
  induction ws generalizing m with
  | nil => simp
  | cons w ws ih =>
      rw [List.foldl_cons, ih, sumCounts_bump, List.length_cons]
      omega

/-- Folding a list of segments into the mapping adds all their warning
counts to the total of all counts. -/
theorem sumCounts_foldl_segments (segs : List Segment) (m : List (String × ℕ)) :
    sumCounts (segs.foldl
        (fun m₁ s => s.warnings.foldl (fun m₂ w => bump m₂ (warningType w)) m₁) m)
      = sumCounts m + (segs.map (fun s => s.warnings.length)).sum := by
  induction segs generalizing m with
  | nil => simp
  | cons s segs ih =>
      rw [List.foldl_cons, ih, sumCounts_foldl_warnings, List.map_cons, List.sum_cons]
      omega

/-- Claim C3: in every completed analysis result, the counts recorded
in `warningTypes` sum to `totalWarnings`, `totalWarnings` is the sum of
the warning-list lengths over all retained segments, and
`unsuitableSegments` is the number of entries of
`problematicSegments`. -/
theorem aggregate_summary_consistent (dist : TrackPoint → TrackPoint → ℚ)
    (lookupTags : TrackPoint → List (String × String))
    (points : List TrackPoint) (cfg : AnalysisConfig) (filename : String) :
    sumCounts (analyzeTrack dist lookupTags points cfg filename).summary.warningTypes
      = (analyzeTrack dist lookupTags points cfg filename).summary.totalWarnings ∧
    (analyzeTrack dist lookupTags points cfg filename).summary.totalWarnings
      = ((analyzeTrack dist lookupTags points cfg filename).problematicSegments.map
          (fun s => s.warnings.length)).sum ∧
    (analyzeTrack dist lookupTags points cfg filename).summary.unsuitableSegments
      = (analyzeTrack dist lookupTags points cfg filename).problematicSegments.length := by
  refine ⟨?_, rfl, rfl⟩
  show sumCounts (warningTypesOf (segmentsOf dist lookupTags points cfg)) = _
  rw [warningTypesOf, sumCounts_foldl_segments]
  have h₀ : sumCounts [] = 0 := rfl
  rw [h₀, Nat.zero_add]
  rfl

/-- Claim C7: the status payload preserved by any transport carries
exactly the field names the frontend poller deserializes, and all the
result field names the claim lists appear among the fields of the
frontend's AnalysisResult interfaces. -/
theorem status_payload_shape :
    statusPayloadFields = progressDataFields ∧
    (["total_points", "problematic_segments", "segment_index", "point_index",
        "tags_found", "total_warnings", "unsuitable_segments", "warning_types"].all
      (fun f =>
        (analysisResultFields ++ problematicSegmentFields ++ summaryFields).contains f))
      = true := by
  exact ⟨rfl, by decide⟩

/-- A run of colon-free characters followed by a colon is exactly what
takeWhile keeps. -/
theorem takeWhile_until_colon (pre : List Char)
    (h : pre.all (fun c => c != ':') = true) (post : List Char) :
    (pre ++ ':' :: post).takeWhile (fun c => c != ':') = pre := by
  induction pre with
  | nil => simp [List.takeWhile_cons]
  | cons a l ih =>
      rw [List.all_cons, Bool.and_eq_true] at h
      rw [List.cons_append, List.takeWhile_cons, if_pos h.1, ih h.2]

/-- The warning-type bucket of `ty ++ ":" ++ detail` is `ty` whenever
`ty` itself contains no colon, whatever the detail contains. -/
theorem warningType_concat (ty detail : String)
    (h : ty.data.all (fun c => c != ':') = true) :
    warningType (ty ++ ":" ++ detail) = ty := by
  rw [warningType]
  have hdata : (ty ++ ":" ++ detail).data = ty.data ++ ':' :: detail.data := by
    rw [String.data_append, String.data_append, List.append_assoc]
    rfl
  rw [hdata, takeWhile_until_colon ty.data h detail.data]

/-- Claim C8: MapView adds a marker for a segment exactly when at least
one of its warnings has its type bucket (the part before the first
colon, computed as `warning.split(':')[0]`) among the enabled warning
types; and every warning the classifier emits has the stable shape
`<type>:<detail>` whose bucket is `steep_slope` or `surface`. -/
theorem mapview_marker_iff (enabled : List String) (s : Segment) :
    (markerAdded enabled s = true ↔
      ∃ w ∈ s.warnings, enabled.contains (warningType w) = true) ∧
    (∀ (p : TrackPoint) (slope : ℚ) (tags : List (String × String))
        (cfg : AnalysisConfig) (w : String), w ∈ classify p slope tags cfg →
      ∃ ty detail, w = ty ++ ":" ++ detail ∧ warningType w = ty ∧
        (ty = "steep_slope" ∨ ty = "surface")) := by
  constructor
  · rw [markerAdded, decide_eq_true_iff, List.length_pos, ne_eq,
      filteredWarnings, List.filter_eq_nil_iff]
    push_neg
    constructor
    · rintro ⟨w, hw, hc⟩
      exact ⟨w, hw, hc⟩
    · rintro ⟨w, hw, hc⟩
      exact ⟨w, hw, hc⟩
  · intro p slope tags cfg w hw
    rw [classify] at hw
    rcases List.mem_append.mp hw with h₁ | h₂
    · by_cases hc : |slope| > cfg.slopeThresholdPercent
      · rw [if_pos hc] at h₁
        have hwval := List.mem_singleton.mp h₁
        refine ⟨"steep_slope", fmtTenths slope, ?_, ?_, Or.inl rfl⟩
        · rw [hwval]
          rfl
        · have : w = "steep_slope" ++ ":" ++ fmtTenths slope := by rw [hwval]; rfl
          rw [this]
          exact warningType_concat _ _ (by decide)
      · rw [if_neg hc] at h₁
        exact absurd h₁ (List.not_mem_nil _)
    · rw [surfaceWarnings] at h₂
      cases hst : surfaceTag tags with
      | some v =>
          rw [hst] at h₂
          have hwval := List.mem_singleton.mp h₂
          refine ⟨"surface", v, ?_, ?_, Or.inr rfl⟩
          · rw [hwval]
            rfl
          · have : w = "surface" ++ ":" ++ v := by rw [hwval]; rfl
            rw [this]
            exact warningType_concat _ _ (by decide)
      | none =>
          rw [hst] at h₂
          exact absurd h₂ (List.not_mem_nil _)

/-- Witness for C8: a segment with one steep-slope warning gets a
marker when the `steep_slope` type is enabled. -/
theorem mapview_marker_iff_witness : markerAdded ["steep_slope"] segSteep = true :=
  (mapview_marker_iff ["steep_slope"] segSteep).1.mpr
    ⟨"steep_slope:45.0", by decide, by decide⟩

/-- Claim C9: on drag-and-drop, FileUpload starts the analysis exactly
when the dropped file's name ends with `.gpx` and alerts otherwise,
while the file input's change handler starts the analysis with no
filename check. -/
theorem fileupload_gpx_check (f : FileRec) (rest : List FileRec) (th : ℚ) :
    (handleDrop (f :: rest) th = .runAnalysis f th ↔ jsEndsWith f.name ".gpx" = true) ∧
    (jsEndsWith f.name ".gpx" = false →
      handleDrop (f :: rest) th = .alertMsg "Veuillez sélectionner un fichier .gpx") ∧
    handleChange (f :: rest) th = .runAnalysis f th := by
  refine ⟨⟨?_, ?_⟩, ?_, rfl⟩
  · intro h
    by_contra hne
    rw [Bool.not_eq_true] at hne
    rw [handleDrop] at h
    rw [hne] at h
    exact absurd h (by simp)
  · intro h
    rw [handleDrop, h]
    rfl
  · intro h
    rw [handleDrop, h]
    rfl

/-- Witness for C9: dropping `route.gpx` starts the analysis, dropping
`route.txt` alerts, and the change handler starts the analysis for
`route.txt` without any check. -/
theorem fileupload_gpx_check_witness :
    handleDrop [FileRec.mk "route.gpx"] 10 = .runAnalysis (FileRec.mk "route.gpx") 10 ∧
    handleDrop [FileRec.mk "route.txt"] 10
      = .alertMsg "Veuillez sélectionner un fichier .gpx" ∧
    handleChange [FileRec.mk "route.txt"] 10 = .runAnalysis (FileRec.mk "route.txt") 10 := by
  refine ⟨?_, ?_, ?_⟩
  · exact (fileupload_gpx_check (FileRec.mk "route.gpx") [] 10).1.mpr (by decide)
  · exact (fileupload_gpx_check (FileRec.mk "route.txt") [] 10).2.1 (by decide)
  · exact (fileupload_gpx_check (FileRec.mk "route.txt") [] 10).2.2

/-- Claim C10: one polling tick stops with `onComplete` exactly when
the response has status `completed` together with a present result,
stops with `onError` exactly when the status is `error` — passing the
snapshot's error string or the non-empty fallback `Erreur inconnue` —
and keeps polling in every other case, including a failed fetch and a
`completed` status with no result. -/
theorem pollstep_stop_conditions (d : ProgressData) :
    ((∃ r, pollStep (some d) = .callOnComplete r) ↔
      d.status = "completed" ∧ d.result.isSome = true) ∧
    ((∃ e, pollStep (some d) = .callOnError e) ↔
      (d.status = "error" ∧ ¬(d.status = "completed" ∧ d.result.isSome = true))) ∧
    (d.status = "error" →
      pollStep (some d) = .callOnError (jsOrStr d.error "Erreur inconnue") ∧
      jsOrStr d.error "Erreur inconnue" ≠ "") ∧
    (d.status = "completed" → d.result = none → pollStep (some d) = .continuePolling) ∧
    (d.status ≠ "completed" → d.status ≠ "error" → pollStep (some d) = .continuePolling) ∧
    pollStep none = .continuePolling := by
  refine ⟨⟨?_, ?_⟩, ⟨?_, ?_⟩, ?_, ?_, ?_, rfl⟩
  · rintro ⟨r, hr⟩
    rw [pollStep] at hr
    by_cases h : d.status = "completed" ∧ d.result.isSome = true
    · exact h
    · rw [dif_neg h] at hr
      by_cases he : d.status = "error"
      · rw [if_pos he] at hr
        exact absurd hr (by simp)
      · rw [if_neg he] at hr
        exact absurd hr (by simp)
  · intro h
    refine ⟨d.result.get h.2, ?_⟩
    rw [pollStep, dif_pos h]
  · rintro ⟨e, he⟩
    rw [pollStep] at he
    by_cases h : d.status = "completed" ∧ d.result.isSome = true
    · rw [dif_pos h] at he
      exact absurd he (by simp)
    · refine ⟨?_, h⟩
      by_contra hne
      rw [dif_neg h, if_neg hne] at he
      exact absurd he (by simp)
  · rintro ⟨herr, hnc⟩
    refine ⟨jsOrStr d.error "Erreur inconnue", ?_⟩
    rw [pollStep, dif_neg hnc, if_pos herr]
  · intro herr
    have hnc : ¬(d.status = "completed" ∧ d.result.isSome = true) := by
      rintro ⟨hc, _⟩
      rw [herr] at hc
      exact absurd hc (by decide)
    refine ⟨?_, ?_⟩
    · rw [pollStep, dif_neg hnc, if_pos herr]
    · cases he : d.error with
      | some s =>
          show (if s = "" then "Erreur inconnue" else s) ≠ ""
          by_cases hs : s = ""
          · rw [if_pos hs]
            decide
          · rw [if_neg hs]
            exact hs
      | none =>
          show ("Erreur inconnue" : String) ≠ ""
          decide
  · intro hc hr
    have hnc : ¬(d.status = "completed" ∧ d.result.isSome = true) := by
      rintro ⟨_, hs⟩
      rw [hr] at hs
      exact absurd hs (by decide)
    have hne : d.status ≠ "error" := by
      rw [hc]
      decide
    rw [pollStep, dif_neg hnc, if_neg hne]
  · intro hnc hne
    have hnc₂ : ¬(d.status = "completed" ∧ d.result.isSome = true) := fun h => hnc h.1
    rw [pollStep, dif_neg hnc₂, if_neg hne]

/-- Witness for C10: a response with status `error` and error text
`boom` stops the polling loop with `onError "boom"`. -/
theorem pollstep_stop_conditions_witness :
    pollStep (some respErr) = .callOnError (jsOrStr respErr.error "Erreur inconnue") ∧
    jsOrStr respErr.error "Erreur inconnue" ≠ "" :=
  (pollstep_stop_conditions respErr).2.2.1 rfl

/-- Statuses of the per-point Processing snapshots: all `processing`. -/
theorem map_status_range (n : ℕ) :
    ((List.range n).map (fun k => processingState n (k + 1))).map JobState.status
      = List.replicate n Status.processing := by
  rw [List.map_map]
  have h : (JobState.status ∘ fun k => processingState n (k + 1))
      = fun _ => Status.processing := rfl
  rw [h, List.map_const', List.length_range]

/-- In a trace made of non-terminal snapshots followed by one final
snapshot, a terminal snapshot can only be the final one, so every later
read returns the same snapshot. -/
theorem terminal_get_eq (l : List JobState) (e : JobState)
    (hl : ∀ x ∈ l, isTerminal x.status = false)
    (i j : Fin (l ++ [e]).length) (hij : i ≤ j)
    (hterm : isTerminal ((l ++ [e]).get i).status = true) :
    (l ++ [e]).get i = (l ++ [e]).get j := by
  have hlen : (l ++ [e]).length = l.length + 1 := by simp
  have hi : (i : ℕ) = l.length := by
    by_contra hne
    have hisl := i.isLt
    have hlt : (i : ℕ) < l.length := by omega
    have hx : (l ++ [e]).get i = l.get ⟨(i : ℕ), hlt⟩ := by
      rw [List.get_eq_getElem, List.get_eq_getElem]
      exact List.getElem_append_left hlt
    rw [hx] at hterm
    have hmem : l.get ⟨(i : ℕ), hlt⟩ ∈ l := by
      rw [List.get_eq_getElem]
      exact List.getElem_mem hlt
    rw [hl _ hmem] at hterm
    exact Bool.false_ne_true hterm
  have hjsl := j.isLt
  have hile := Fin.le_def.mp hij
  have hij₂ : i = j := Fin.ext (by omega)
  rw [hij₂]

/-- Transport of `terminal_get_eq` along a decomposition of the
trace. -/
theorem terminal_get_eq_of (t l : List JobState) (e : JobState) (ht : t = l ++ [e])
    (hl : ∀ x ∈ l, isTerminal x.status = false)
    (i j : Fin t.length) (hij : i ≤ j)
    (hterm : isTerminal (t.get i).status = true) : t.get i = t.get j := by
  subst ht
  exact terminal_get_eq l e hl i j hij hterm

/-- Claim C4: the sequence of statuses a poller can observe is exactly
Starting, then some number of Processing snapshots, then a single
terminal snapshot (Completed or Error); no other transition occurs, and
from a terminal snapshot on, every later read returns the identical
snapshot. -/
theorem runJob_status_machine (dist : TrackPoint → TrackPoint → ℚ)
    (lookupTags : TrackPoint → List (String × String))
    (points : List TrackPoint) (cfg : AnalysisConfig) (filename : String) :
    (∃ m term, (term = Status.completed ∨ term = Status.error) ∧
      (runJob dist lookupTags points cfg filename).map JobState.status
        = Status.starting :: (List.replicate m Status.processing ++ [term])) ∧
    (∀ i j : Fin (runJob dist lookupTags points cfg filename).length, i ≤ j →
      isTerminal ((runJob dist lookupTags points cfg filename).get i).status = true →
      (runJob dist lookupTags points cfg filename).get i
        = (runJob dist lookupTags points cfg filename).get j) := by
  constructor
  · by_cases hn : points.length < 2
    · refine ⟨1, Status.error, Or.inr rfl, ?_⟩
      rw [runJob, if_pos hn]
      rfl
    · refine ⟨points.length + 1, Status.completed, Or.inl rfl, ?_⟩
      rw [runJob, if_neg hn, List.map_append, List.map_cons, List.map_cons,
        map_status_range, List.replicate_succ, List.cons_append, List.cons_append]
      rfl
  · intro i j hij hterm
    by_cases hn : points.length < 2
    · refine terminal_get_eq_of _
        [startingState, processingState points.length 0]
        (errState points.length "InsufficientData: at least two points are required")
        ?_ ?_ i j hij hterm
      · rw [runJob, if_pos hn]
        rfl
      · intro x hx
        rcases List.mem_cons.mp hx with rfl | hx₂
        · rfl
        · rcases List.mem_cons.mp hx₂ with rfl | hx₃
          · rfl
          · exact absurd hx₃ (List.not_mem_nil _)
    · refine terminal_get_eq_of _
        (startingState :: processingState points.length 0 ::
          (List.range points.length).map (fun k => processingState points.length (k + 1)))
        (completedState points.length (analyzeTrack dist lookupTags points cfg filename))
        ?_ ?_ i j hij hterm
      · rw [runJob, if_neg hn]
      · intro x hx
        rcases List.mem_cons.mp hx with rfl | hx₂
        · rfl
        · rcases List.mem_cons.mp hx₂ with rfl | hx₃
          · rfl
          · obtain ⟨k, _, rfl⟩ := List.mem_map.mp hx₃
            rfl

/-- Witness for C4: on the concrete one-point track the status trace
has the Starting, Processing, terminal shape, and the terminal snapshot
at position 2 reads back identically. -/
theorem runJob_status_machine_witness :
    (∃ m term, (term = Status.completed ∨ term = Status.error) ∧
      (runJob distZero lookupZero onePt cfg10 "track.gpx").map JobState.status
        = Status.starting :: (List.replicate m Status.processing ++ [term])) ∧
    (runJob distZero lookupZero onePt cfg10 "track.gpx").get ⟨2, by decide⟩
      = (runJob distZero lookupZero onePt cfg10 "track.gpx").get ⟨2, by decide⟩ := by
  have h := runJob_status_machine distZero lookupZero onePt cfg10 "track.gpx"
  exact ⟨h.1, h.2 ⟨2, by decide⟩ ⟨2, by decide⟩ (le_refl _) (by decide)⟩

/-- Claim C5: in every published snapshot, a result is present exactly
when the status is Completed, and an error is present exactly when the
status is Error. -/
theorem jobstate_result_error_iff (dist : TrackPoint → TrackPoint → ℚ)
    (lookupTags : TrackPoint → List (String × String))
    (points : List TrackPoint) (cfg : AnalysisConfig) (filename : String)
    (s : JobState) (hs : s ∈ runJob dist lookupTags points cfg filename) :
    (s.result.isSome = true ↔ s.status = Status.completed) ∧
    (s.error.isSome = true ↔ s.status = Status.error) := by
  rw [runJob] at hs
  by_cases hn : points.length < 2
  · rw [if_pos hn] at hs
    rcases List.mem_cons.mp hs with rfl | hs₂
    · constructor <;> simp [startingState]
    · rcases List.mem_cons.mp hs₂ with rfl | hs₃
      · constructor <;> simp [processingState]
      · rcases List.mem_cons.mp hs₃ with rfl | hs₄
        · constructor <;> simp [errState]
        · exact absurd hs₄ (List.not_mem_nil _)
  · rw [if_neg hn, List.cons_append, List.cons_append] at hs
    rcases List.mem_cons.mp hs with rfl | hs₂
    · constructor <;> simp [startingState]
    · rcases List.mem_cons.mp hs₂ with rfl | hs₃
      · constructor <;> simp [processingState]
      · rcases List.mem_append.mp hs₃ with hs₄ | hs₅
        · obtain ⟨k, _, rfl⟩ := List.mem_map.mp hs₄
          constructor <;> simp [processingState]
        · rcases List.mem_cons.mp hs₅ with rfl | hs₆
          · constructor <;> simp [completedState]
          · exact absurd hs₆ (List.not_mem_nil _)

/-- Witness for C5: the Starting snapshot of a concrete run satisfies
both presence equivalences. -/
theorem jobstate_result_error_iff_witness :
    (startingState.result.isSome = true ↔ startingState.status = Status.completed) ∧
    (startingState.error.isSome = true ↔ startingState.status = Status.error) :=
  jobstate_result_error_iff distZero lookupZero onePt cfg10 "track.gpx" startingState
    (List.mem_cons_self _ _)

/-- Claim C6: for every track of at least two points the run ends in a
Completed snapshot whose processedPoints equals totalPoints, whose
progress is 100, and which carries the aggregated result in that same
snapshot. -/
theorem runJob_completed_final (dist : TrackPoint → TrackPoint → ℚ)
    (lookupTags : TrackPoint → List (String × String))
    (points : List TrackPoint) (cfg : AnalysisConfig) (filename : String)
    (h : 2 ≤ points.length) :
    ∃ last, (runJob dist lookupTags points cfg filename).getLast? = some last ∧
      last.status = Status.completed ∧
      last.processedPoints = last.totalPoints ∧
      last.progressPercent = 100 ∧
      last.result = some (analyzeTrack dist lookupTags points cfg filename) := by
  have hn : ¬ points.length < 2 := not_lt.mpr h
  refine ⟨completedState points.length
      (analyzeTrack dist lookupTags points cfg filename), ?_, rfl, rfl, rfl, rfl⟩
  rw [runJob, if_neg hn]
  exact List.getLast?_concat _

/-- Witness for C6: the concrete two-point track completes with full
progress and a populated result. -/
theorem runJob_completed_final_witness :
    2 ≤ twoPts.length ∧
    ∃ last, (runJob distZero lookupZero twoPts cfg10 "track.gpx").getLast? = some last ∧
      last.status = Status.completed ∧
      last.processedPoints = last.totalPoints ∧
      last.progressPercent = 100 ∧
      last.result = some (analyzeTrack distZero lookupZero twoPts cfg10 "track.gpx") :=
  ⟨by decide, runJob_completed_final distZero lookupZero twoPts cfg10 "track.gpx" (by decide)⟩
